import Mathlib

/-!
Verification development for the CARTA desktop launcher
(`src-tauri/src/lib.rs`): a shallow embedding of the launcher's
CLI parser, backend-option validator, path-resolution layer and
process supervisor, together with theorems settling the spec claims.

Rust strings are modelled by Lean `String`; the handful of `str`
methods the source uses (`starts_with`, `contains`, `split_once`,
`trim_end_matches`, `trim_start_matches`, `trim`, `strip_prefix`)
are modelled by the `str*`/`trim*`/`splitOnceEq` helpers below,
operating on the character list `String.data`.
-/

set_option maxHeartbeats 4000000

namespace Carta

/-- Model of Rust `str::starts_with(pat)`. -/
def strStartsWith (s pat : String) : Bool :=
  pat.data.isPrefixOf s.data

/-- Model of Rust `str::contains(ch)` for a single character pattern. -/
def strContains (s : String) (c : Char) : Bool :=
  s.data.contains c

/-- Model of Rust `str::split_once('=')`, specialised to what
`validate_backend_args` uses: the part before the first `=` together
with a flag telling whether a `=` was present. -/
def splitOnceEq (s : String) : String × Bool :=
  if strContains s '=' then (⟨s.data.takeWhile (fun c => c != '=')⟩, true)
  else (s, false)

/-- Model of Rust `str::trim_end_matches('/')`. -/
def trimEndSlashes (s : String) : String :=
  ⟨(s.data.reverse.dropWhile (fun c => c = '/')).reverse⟩

/-- Model of Rust `str::trim()` (whitespace removed at both ends). -/
def rustTrim (s : String) : String :=
  ⟨((s.data.dropWhile Char.isWhitespace).reverse.dropWhile Char.isWhitespace).reverse⟩

/-- One stripping pass list helper for `trim_start_matches`:
repeatedly drop the pattern `p` from the front of `s` while it is a
prefix; `fuel` bounds the recursion (each step removes at least one
character when `p` is nonempty, so `s.length` fuel is enough). -/
def trimStartMatchesAux (p : List Char) : Nat → List Char → List Char
  | 0, s => s
  | fuel + 1, s =>
    if p ≠ [] ∧ p.isPrefixOf s then trimStartMatchesAux p fuel (s.drop p.length)
    else s

/-- Model of Rust `str::trim_start_matches(pat)`: removes every
leading repetition of `pat`. -/
def trimStartMatches (s pat : String) : String :=
  ⟨trimStartMatchesAux pat.data s.data.length s.data⟩

/-- `OptionValueKind` from the source: whether a backend option is
flag-only or takes a required value. -/
inductive OptionValueKind where
  | None
  | Required
deriving DecidableEq

/-- `BACKEND_LONG_OPTIONS` table from the source. -/
def BACKEND_LONG_OPTIONS : List (String × OptionValueKind) :=
  [("--help", OptionValueKind.None),
   ("--version", OptionValueKind.None),
   ("--verbosity", OptionValueKind.Required),
   ("--no_log", OptionValueKind.None),
   ("--log_performance", OptionValueKind.None),
   ("--log_protocol_messages", OptionValueKind.None),
   ("--no_frontend", OptionValueKind.None),
   ("--no_database", OptionValueKind.None),
   ("--http_url_prefix", OptionValueKind.Required),
   ("--no_browser", OptionValueKind.None),
   ("--browser", OptionValueKind.Required),
   ("--host", OptionValueKind.Required),
   ("--port", OptionValueKind.Required),
   ("--omp_threads", OptionValueKind.Required),
   ("--top_level_folder", OptionValueKind.Required),
   ("--frontend_folder", OptionValueKind.Required),
   ("--exit_timeout", OptionValueKind.Required),
   ("--initial_timeout", OptionValueKind.Required),
   ("--idle_timeout", OptionValueKind.Required),
   ("--read_only_mode", OptionValueKind.None),
   ("--enable_scripting", OptionValueKind.None),
   ("--no_user_config", OptionValueKind.None),
   ("--no_system_config", OptionValueKind.None),
   ("--debug_no_auth", OptionValueKind.None),
   ("--no_runtime_config", OptionValueKind.None),
   ("--controller_deployment", OptionValueKind.None),
   ("--threads", OptionValueKind.Required),
   ("--base", OptionValueKind.Required),
   ("--root", OptionValueKind.Required),
   ("--no_http", OptionValueKind.None)]

/-- `BACKEND_SHORT_OPTIONS` table from the source. -/
def BACKEND_SHORT_OPTIONS : List (String × OptionValueKind) :=
  [("-h", OptionValueKind.None),
   ("-v", OptionValueKind.None),
   ("-p", OptionValueKind.Required),
   ("-t", OptionValueKind.Required)]

/-- `backend_option_kind` from the source: schema lookup, long names
against the long table, short names against the short table. -/
def backend_option_kind (option : String) : Option OptionValueKind :=
  if strStartsWith option "--" then
    (BACKEND_LONG_OPTIONS.find? (fun p => p.1 = option)).map Prod.snd
  else if strStartsWith option "-" then
    (BACKEND_SHORT_OPTIONS.find? (fun p => p.1 = option)).map Prod.snd
  else
    none

/-- The candidate list computed by `unknown_backend_option_message`:
known long options having the given (long) option as a prefix. -/
def backend_long_candidates (option : String) : List String :=
  if strStartsWith option "--" then
    (BACKEND_LONG_OPTIONS.map Prod.fst).filter (fun known => strStartsWith known option)
  else
    []

/-- `unknown_backend_option_message` from the source. -/
def unknown_backend_option_message (option : String) : String :=
  let message := "Unsupported backend option: " ++ option
  let message :=
    match backend_long_candidates option with
    | [c] => message ++ "\nDid you mean " ++ c ++ "?"
    | _ => message
  message ++ "\nRun with --help to see supported options."

/-- The flag-shape test of `validate_backend_args`:
`arg.starts_with("--") || (arg.starts_with('-') && arg != "-")`. -/
def isBackendFlagToken (arg : String) : Bool :=
  strStartsWith arg "--" || (strStartsWith arg "-" && arg != "-")

/-- `validate_backend_args` from the source, the index loop rendered
as structural recursion on the argument list (advancing the index by
two becomes recursing on the tail of the tail). -/
def validate_backend_args : List String → Except String Unit
  | [] => Except.ok ()
  | arg :: rest =>
    if arg = "--" then Except.ok ()
    else if isBackendFlagToken arg then
      let name := (splitOnceEq arg).1
      let has_inline_value := (splitOnceEq arg).2
      match backend_option_kind name with
      | none => Except.error (unknown_backend_option_message name)
      | some kind =>
        if has_inline_value = true ∧ kind = OptionValueKind.None then
          Except.error ("Backend option " ++ name ++ " does not take a value")
        else if kind = OptionValueKind.Required ∧ has_inline_value = false then
          match rest with
          | [] => Except.error ("Backend option " ++ name ++ " requires a value")
          | value :: rest2 =>
            if strStartsWith value "-" then
              Except.error ("Backend option " ++ name ++ " requires a value")
            else
              validate_backend_args rest2
        else
          validate_backend_args rest
    else
      validate_backend_args rest

/-- `CliArgs` from the source (Rust field types carried over:
`Option<u16>` becomes `Option Nat`, with range enforced by the
parser model below). -/
structure CliArgs where
  input_path : Option String := none
  extra_args : List String := []
  inspect : Bool := false
  help : Bool := false
  version : Bool := false
  port : Option Nat := none
  port_error : Option String := none
deriving DecidableEq

/-- Model of Rust `str::parse::<u16>()`: an optional leading `+`,
then at least one ASCII digit, and the decimal value must fit in
sixteen bits; anything else fails. -/
def parseU16 (s : String) : Option Nat :=
  let digits := match s.data with
    | '+' :: rest => rest
    | l => l
  if digits = [] then none
  else if digits.all (fun c => c.isDigit) then
    let n := digits.foldl (fun acc c => acc * 10 + (c.toNat - 48)) 0
    if n < 65536 then some n else none
  else none

/-- The nested `parse_port` helper of `parse_cli_args_from`: on
success records the port and answers `true`; on failure records the
`Invalid port number` message and answers `false`. -/
def parse_port (value : String) (r : CliArgs) : CliArgs × Bool :=
  match parseU16 value with
  | some p => ({ r with port := some p }, true)
  | none => ({ r with port_error := some ("Invalid port number: " ++ value) }, false)

/-- The `--` branch of the parser loop: every remaining token is
taken verbatim, the first becoming the input path when none is set
yet and every other being appended to the passthrough list. -/
def consumeAfterSeparator (r : CliArgs) (rest : List String) : CliArgs :=
  rest.foldl
    (fun acc tok =>
      if acc.input_path = none then { acc with input_path := some tok }
      else { acc with extra_args := acc.extra_args ++ [tok] })
    r

/-- The `while let Some(arg) = iter.next()` loop of
`parse_cli_args_from`, rendered as recursion on the remaining
argument list; each match arm of the source appears in order. -/
def parse_cli_args_loop (r : CliArgs) : List String → CliArgs
  | [] => r
  | arg :: rest =>
    if arg = "--" then
      consumeAfterSeparator r rest
    else if arg = "--inspect" then
      parse_cli_args_loop { r with inspect := true } rest
    else if arg = "--help" ∨ arg = "-h" then
      parse_cli_args_loop { r with help := true } rest
    else if arg = "--version" ∨ arg = "-v" then
      parse_cli_args_loop { r with version := true } rest
    else if arg = "--port" ∨ arg = "-p" then
      match rest with
      | [] => { r with port_error := some "Missing value for --port" }
      | value :: rest2 =>
        let step := parse_port value r
        if step.2 then parse_cli_args_loop step.1 rest2 else step.1
    else if strStartsWith arg "--port=" then
      let step := parse_port (trimStartMatches arg "--port=") r
      if step.2 then parse_cli_args_loop step.1 rest else step.1
    else if strStartsWith arg "-p=" then
      let step := parse_port (trimStartMatches arg "-p=") r
      if step.2 then parse_cli_args_loop step.1 rest else step.1
    else if strStartsWith arg "-psn_" then
      parse_cli_args_loop r rest
    else if strStartsWith arg "-" then
      let r2 := { r with extra_args := r.extra_args ++ [arg] }
      match rest with
      | next :: rest2 =>
        if strContains arg '=' = false ∧ strStartsWith next "-" = false then
          parse_cli_args_loop { r2 with extra_args := r2.extra_args ++ [next] } rest2
        else
          parse_cli_args_loop r2 (next :: rest2)
      | [] => parse_cli_args_loop r2 []
    else if r.input_path = none then
      parse_cli_args_loop { r with input_path := some arg } rest
    else
      parse_cli_args_loop { r with extra_args := r.extra_args ++ [arg] } rest
termination_by l => l.length
decreasing_by all_goals simp_arith

/-- `parse_cli_args_from` from the source. -/
def parse_cli_args_from (args : List String) : CliArgs :=
  parse_cli_args_loop {} args

/-- `is_wsl_path_str` from the source: a path already in WSL form
starts with `/`. -/
def is_wsl_path_str (path : String) : Bool :=
  strStartsWith path "/"

/-- Model of Rust `str::strip_prefix` for the extended-length prefix
`\\?\` (four characters). -/
def stripExtendedLength (s : String) : String :=
  if ("\\\\?\\" : String).data.isPrefixOf s.data then ⟨s.data.drop 4⟩ else s

/-- `win_to_wsl_path` from the source: trim, strip the
extended-length prefix, require a `X:` drive plan, lowercase the
drive letter, flip backslashes, and prepend `/mnt/`. -/
def win_to_wsl_path (winPath : String) : Option String :=
  let path := stripExtendedLength (rustTrim winPath)
  if path.data.length < 2 then none
  else if path.data[1]? ≠ some ':' then none
  else
    match path.data with
    | drive :: _ :: rest =>
      some ("/mnt/" ++ ⟨[drive.toLower]⟩ ++ ⟨rest.map (fun ch => if ch = '\\' then '/' else ch)⟩)
    | _ => none

/-- `to_wsl_path_str` from the source. -/
def to_wsl_path_str (path : String) : Except String String :=
  if is_wsl_path_str path then Except.ok path
  else
    match win_to_wsl_path path with
    | some p => Except.ok p
    | none => Except.error "Failed to convert path to WSL format"

/-- `wsl_path_is_within` from the source: trailing slashes trimmed
on both sides, then equality, or a strict prefix whose boundary
character in `base` is a path separator. -/
def wsl_path_is_within (base top : String) : Bool :=
  let base := trimEndSlashes base
  let top := trimEndSlashes top
  if base = top then true
  else strStartsWith base top && base.data[top.data.length]? = some '/'

/-- `is_path_within_top_level` from the source (WSL-bridge build):
translate both sides to WSL form, failures count as not-contained. -/
def is_path_within_top_level (base top_level : String) : Bool :=
  match to_wsl_path_str base, to_wsl_path_str top_level with
  | Except.ok b, Except.ok t => wsl_path_is_within b t
  | _, _ => false

/-- `ensure_base_dir_within_top_level` from the source. -/
def ensure_base_dir_within_top_level (base_dir top_level : String) : String :=
  if is_path_within_top_level base_dir top_level then base_dir else top_level

/-- `SYMLINK_BASE` constant from the source. -/
def SYMLINK_BASE : String := "/tmp"

/-- `SYMLINK_NAME` constant from the source. -/
def SYMLINK_NAME : String := "carta-etc"

/-- The fixed symlink location `/tmp/carta-etc` used by
`resolve_etc_path` for space-containing paths. -/
def symlinkLinkPath : String := SYMLINK_BASE ++ "/" ++ SYMLINK_NAME

/-- What occupies the fixed symlink location: nothing, a symlink
with some target, or a non-symlink file system object. -/
inductive EtcLinkEntry where
  | missing
  | symlinkTo (target : String)
  | nonSymlink
deriving DecidableEq

/-- The file-system facts `resolve_etc_path` observes: whether the
`backend/etc` directory exists, what `fs::canonicalize` returns for
it (`none` models canonicalization failure, in which case the
un-canonicalized path is used), and the state of the fixed symlink
location. -/
structure EtcFs where
  etcExists : Bool
  canonical : Option String
  linkEntry : EtcLinkEntry
deriving DecidableEq

/-- `resolve_etc_path` from the source (Unix branch), as a function
of the observed file-system state; returns the derived etc path
string together with the updated symlink-location state. Symlink
creation itself is modelled as succeeding. -/
def resolve_etc_path (etcPath : String) (fs : EtcFs) : Except String String × EtcFs :=
  if fs.etcExists = false then
    (Except.error "backend/etc directory not found", fs)
  else
    let resolved := fs.canonical.getD etcPath
    if strContains resolved ' ' = false then (Except.ok resolved, fs)
    else
      match fs.linkEntry with
      | EtcLinkEntry.nonSymlink => (Except.error "symlink path already exists", fs)
      | EtcLinkEntry.symlinkTo target =>
        if target = resolved then (Except.ok symlinkLinkPath, fs)
        else (Except.ok symlinkLinkPath, { fs with linkEntry := EtcLinkEntry.symlinkTo resolved })
      | EtcLinkEntry.missing =>
        (Except.ok symlinkLinkPath, { fs with linkEntry := EtcLinkEntry.symlinkTo resolved })

/-- `resolve_casa_path` from the source: the CASAPATH override value
built from the resolved etc path with the fixed relative-escape
prefix and the trailing platform tag. -/
def resolve_casa_path (etcPath : String) (fs : EtcFs) : Except String String × EtcFs :=
  match resolve_etc_path etcPath fs with
  | (Except.ok p, fs1) => (Except.ok ("../../../../../" ++ p ++ " linux"), fs1)
  | (Except.error e, fs1) => (Except.error e, fs1)

/-- The supervisor state relevant to `shutdown_backend`: the
`Mutex<Option<Child>>` handle of `AppState`, a child process
modelled by its process id. -/
structure SupervisorState where
  backend : Option Nat
deriving DecidableEq

/-- Observable process-management actions taken by the supervisor. -/
inductive SupEvent where
  | kill (pid : Nat)
  | reap (pid : Nat)
deriving DecidableEq

/-- `shutdown_backend` from the source: take the handle out of the
mutex if present, kill the process, wait for (reap) it; the handle
slot is left empty either way. Returns the new state and the
process-management actions performed. -/
def shutdown_backend (s : SupervisorState) : SupervisorState × List SupEvent :=
  match s.backend with
  | some pid => (⟨none⟩, [SupEvent.kill pid, SupEvent.reap pid])
  | none => (s, [])

/-- Equality of `Except String Unit` results is decidable (used so
concrete validator and supervisor runs can be settled by `decide`). -/
instance : DecidableEq (Except String Unit) := fun a b =>
  match a, b with
  | Except.ok (), Except.ok () => isTrue rfl
  | Except.error e1, Except.error e2 =>
    if h : e1 = e2 then isTrue (by rw [h]) else isFalse (by intro hc; cases hc; exact h rfl)
  | Except.ok _, Except.error _ => isFalse (by intro hc; cases hc)
  | Except.error _, Except.ok _ => isFalse (by intro hc; cases hc)

/-- One iteration's observations during readiness polling: the
result of `child.try_wait()` (a rendered exit status when the child
has exited) and of the TCP `connect_timeout` probe (the rendered
I/O error on failure). -/
structure PollObs where
  exitStatus : Option String
  connect : Except String Unit
deriving DecidableEq

/-- The early-exit error message of `wait_for_backend`. -/
def backendExitMessage (status : String) : String :=
  "Backend process exited unexpectedly with status: " ++ status

/-- The timeout error message of `wait_for_backend`: port, elapsed
timeout in seconds, and the last connection error when one was
recorded. -/
def backendTimeoutMessage (port timeoutSecs : Nat) (lastError : Option String) : String :=
  "Backend not ready on port " ++ toString port ++ " after " ++ toString timeoutSecs ++ "s" ++
    (match lastError with
     | some e => " (" ++ e ++ ")"
     | none => "")

/-- The polling loop of `wait_for_backend`: the list holds the
observations of the iterations that fit inside the timeout window
(each iteration sleeps a fixed interval, so the window admits
finitely many); an exhausted list means the timeout elapsed.
`lastError` accumulates the last recorded connection error. -/
def wait_for_backend_loop (port timeoutSecs : Nat) :
    List PollObs → Option String → Except String Unit
  | [], lastError => Except.error (backendTimeoutMessage port timeoutSecs lastError)
  | obs :: rest, _lastError =>
    match obs.exitStatus with
    | some status => Except.error (backendExitMessage status)
    | none =>
      match obs.connect with
      | Except.ok _ => Except.ok ()
      | Except.error e => wait_for_backend_loop port timeoutSecs rest (some e)

/-- `wait_for_backend` from the source, over the poll observations
that fit inside the timeout. -/
def wait_for_backend (port timeoutSecs : Nat) (polls : List PollObs) : Except String Unit :=
  wait_for_backend_loop port timeoutSecs polls none

end Carta

namespace Carta

/-! ## Helper lemmas -/

theorem strStartsWith_data_append {s p : String} (l : List Char)
    (h : strStartsWith s p = true) : strStartsWith ⟨s.data ++ l⟩ p = true := by
  rw [strStartsWith, List.isPrefixOf_iff_prefix] at h ⊢
  exact h.trans (List.prefix_append s.data l)

theorem not_mem_of_strContains_false {s : String} {c : Char}
    (h : strContains s c = false) : c ∉ s.data := by
  intro hm
  rw [strContains] at h
  simp at h
  exact h hm

theorem takeWhile_ne_append {l : List Char} (m : List Char)
    (h : ∀ c ∈ l, c ≠ '=') :
    (l ++ '=' :: m).takeWhile (fun c => c != '=') = l := by
  induction l with
  | nil => simp
  | cons a l ih =>
    have ha : a ≠ '=' := h a (List.mem_cons_self a l)
    simp only [List.cons_append, List.takeWhile_cons]
    simp [ha, ih (fun c hc => h c (List.mem_cons_of_mem a hc))]

theorem splitOnceEq_of_append {name : String} (v : String)
    (h : strContains name '=' = false) :
    splitOnceEq ⟨name.data ++ '=' :: v.data⟩ = (name, true) := by
  have hmem : '=' ∈ (⟨name.data ++ '=' :: v.data⟩ : String).data := by simp
  have hc : strContains ⟨name.data ++ '=' :: v.data⟩ '=' = true := by
    rw [strContains]
    simp [hmem]
  rw [splitOnceEq, if_pos hc]
  have hne := not_mem_of_strContains_false h
  rw [show ((⟨name.data ++ '=' :: v.data⟩ : String).data = name.data ++ '=' :: v.data) from rfl,
    takeWhile_ne_append v.data (fun c hc2 => by
      intro hceq
      exact hne (hceq ▸ hc2))]

theorem splitOnceEq_of_no_eq {s : String} (h : strContains s '=' = false) :
    splitOnceEq s = (s, false) := by
  rw [splitOnceEq, if_neg]
  simp [h]

theorem inline_arg_ne (name v : String) (other : String)
    (hother : strContains other '=' = false) :
    (⟨name.data ++ '=' :: v.data⟩ : String) ≠ other := by
  intro heq
  have hmem : '=' ∈ (⟨name.data ++ '=' :: v.data⟩ : String).data := by simp
  rw [heq] at hmem
  exact not_mem_of_strContains_false hother hmem

theorem isBackendFlagToken_inline (name v : String)
    (h : isBackendFlagToken name = true) :
    isBackendFlagToken ⟨name.data ++ '=' :: v.data⟩ = true := by
  rw [isBackendFlagToken, Bool.or_eq_true] at h ⊢
  rcases h with h | h
  · exact Or.inl (strStartsWith_data_append _ h)
  · rw [Bool.and_eq_true] at h
    refine Or.inr (by
      rw [Bool.and_eq_true]
      refine ⟨strStartsWith_data_append _ h.1, ?_⟩
      rw [bne_iff_ne]
      exact inline_arg_ne name v "-" (by rfl))

/-! ## C2: shutdown idempotence -/

/-- C2: `shutdown_backend` is idempotent: whatever the supervisor
state, afterwards no handle is present; with a handle present it
kills and reaps that process and clears the handle; with no handle
it is a no-op, and a second call in sequence observes no handle and
is a no-op. -/
theorem shutdown_backend_idempotent (s : SupervisorState) :
    (shutdown_backend s).1.backend = none
    ∧ (s.backend = none → shutdown_backend s = (s, []))
    ∧ (∀ pid, s.backend = some pid →
        shutdown_backend s = (⟨none⟩, [SupEvent.kill pid, SupEvent.reap pid]))
    ∧ shutdown_backend (shutdown_backend s).1 = ((shutdown_backend s).1, []) := by
  obtain ⟨b⟩ := s
  cases b <;> simp [shutdown_backend]

/-- Closed instance of `shutdown_backend_idempotent`: a spawned
handle is killed, reaped and cleared; a never-spawned state is a
no-op. -/
theorem shutdown_backend_idempotent_witness :
    shutdown_backend ⟨some 7⟩ = (⟨none⟩, [SupEvent.kill 7, SupEvent.reap 7])
    ∧ shutdown_backend ⟨none⟩ = (⟨none⟩, []) :=
  ⟨(shutdown_backend_idempotent ⟨some 7⟩).2.2.1 7 rfl,
   (shutdown_backend_idempotent ⟨none⟩).2.1 rfl⟩

/-! ## C9: scope guard substitution -/

/-- C9: the scope guard returns the base directory unchanged when it
lies within the confinement root and otherwise returns the
confinement root itself; it is a total function and surfaces no
error in the not-contained case. -/
theorem ensure_base_dir_scope_guard (base top : String) :
    (is_path_within_top_level base top = true →
       ensure_base_dir_within_top_level base top = base)
    ∧ (is_path_within_top_level base top = false →
       ensure_base_dir_within_top_level base top = top) := by
  constructor <;> intro h <;> simp [ensure_base_dir_within_top_level, h]

/-- Closed instance of `ensure_base_dir_scope_guard`: a contained
base is kept, an out-of-scope base is replaced by the root. -/
theorem ensure_base_dir_scope_guard_witness :
    ensure_base_dir_within_top_level "/data/sub" "/data" = "/data/sub"
    ∧ ensure_base_dir_within_top_level "/other" "/data" = "/data" :=
  ⟨(ensure_base_dir_scope_guard "/data/sub" "/data").1 (by decide),
   (ensure_base_dir_scope_guard "/other" "/data").2 (by decide)⟩

/-! ## C7: symlink-location idempotence -/

/-- C7: for a space-containing resolved etc directory, resolution is
idempotent over the fixed symlink location: a symlink already
targeting the resolved directory is reused with no state change; a
symlink targeting something else is replaced by one targeting the
resolved directory; a non-symlink occupant makes resolution fail
with `symlink path already exists` on this and on every following
attempt, and the occupant is never overwritten; and after any
successful resolution a second resolution returns the same value and
leaves the state unchanged. -/
theorem resolve_etc_path_symlink_idempotent (etcPath : String) (fs : EtcFs)
    (hex : fs.etcExists = true)
    (hsp : strContains (fs.canonical.getD etcPath) ' ' = true) :
    (fs.linkEntry = EtcLinkEntry.symlinkTo (fs.canonical.getD etcPath) →
       resolve_etc_path etcPath fs = (Except.ok symlinkLinkPath, fs))
    ∧ (∀ t, fs.linkEntry = EtcLinkEntry.symlinkTo t → t ≠ fs.canonical.getD etcPath →
       resolve_etc_path etcPath fs =
         (Except.ok symlinkLinkPath,
          { fs with linkEntry := EtcLinkEntry.symlinkTo (fs.canonical.getD etcPath) }))
    ∧ (fs.linkEntry = EtcLinkEntry.nonSymlink →
       resolve_etc_path etcPath fs = (Except.error "symlink path already exists", fs)
       ∧ resolve_etc_path etcPath (resolve_etc_path etcPath fs).2 =
           (Except.error "symlink path already exists", fs))
    ∧ (∀ p fs1, resolve_etc_path etcPath fs = (Except.ok p, fs1) →
       resolve_etc_path etcPath fs1 = (Except.ok p, fs1)) := by
  obtain ⟨ex, canon, le⟩ := fs
  simp only at hex hsp
  subst hex
  refine ⟨?_, ?_, ?_, ?_⟩
  · intro hle
    simp only at hle
    subst hle
    simp [resolve_etc_path, hsp]
  · intro t hle hne
    simp only at hle
    subst hle
    simp [resolve_etc_path, hsp, hne]
  · intro hle
    simp only at hle
    subst hle
    simp [resolve_etc_path, hsp]
  · intro p fs1 h
    cases le with
    | missing =>
      simp [resolve_etc_path, hsp] at h ⊢
      rw [← h.2]
      simp [h.1, hsp]
    | symlinkTo t =>
      by_cases ht : t = canon.getD etcPath
      · subst ht
        simp [resolve_etc_path, hsp] at h ⊢
        rw [← h.2]
        simp [h.1, hsp]
      · simp [resolve_etc_path, hsp, ht] at h ⊢
        rw [← h.2]
        simp [h.1, hsp]
    | nonSymlink =>
      simp [resolve_etc_path, hsp] at h

/-- Closed instance of `resolve_etc_path_symlink_idempotent`: with a
correctly-targeted symlink in place the resolution reuses it
unchanged, and with a non-symlink occupant it fails identically on
two consecutive attempts. -/
theorem resolve_etc_path_symlink_idempotent_witness :
    resolve_etc_path "/app/backend/etc"
        ⟨true, some "/opt/carta app/etc", EtcLinkEntry.symlinkTo "/opt/carta app/etc"⟩ =
      (Except.ok symlinkLinkPath,
       ⟨true, some "/opt/carta app/etc", EtcLinkEntry.symlinkTo "/opt/carta app/etc"⟩)
    ∧ resolve_etc_path "/app/backend/etc"
        ⟨true, some "/opt/carta app/etc", EtcLinkEntry.nonSymlink⟩ =
      (Except.error "symlink path already exists",
       ⟨true, some "/opt/carta app/etc", EtcLinkEntry.nonSymlink⟩) :=
  ⟨(resolve_etc_path_symlink_idempotent "/app/backend/etc"
      ⟨true, some "/opt/carta app/etc", EtcLinkEntry.symlinkTo "/opt/carta app/etc"⟩
      rfl (by decide)).1 rfl,
   ((resolve_etc_path_symlink_idempotent "/app/backend/etc"
      ⟨true, some "/opt/carta app/etc", EtcLinkEntry.nonSymlink⟩
      rfl (by decide)).2.2.1 rfl).1⟩

/-! ## C8: CASAPATH override format -/

/-- C8: whenever the etc path resolves successfully, the derived
configuration-path override equals the fixed relative-escape prefix
`../../../../../` concatenated with the chosen space-free etc path,
a single space, and the platform tag `linux`; and when the
canonicalized etc path contains no space it is itself that chosen
path. -/
theorem resolve_casa_path_override_format (etcPath : String) (fs : EtcFs) :
    (∀ p fs1, resolve_etc_path etcPath fs = (Except.ok p, fs1) →
       (resolve_casa_path etcPath fs).1 = Except.ok ("../../../../../" ++ p ++ " linux"))
    ∧ (fs.etcExists = true →
       strContains (fs.canonical.getD etcPath) ' ' = false →
       resolve_etc_path etcPath fs = (Except.ok (fs.canonical.getD etcPath), fs)) := by
  constructor
  · intro p fs1 h
    rw [resolve_casa_path]
    rw [h]
  · intro hex hsp
    simp [resolve_etc_path, hex, hsp]

/-- Closed instance of `resolve_casa_path_override_format`: a
space-free canonical etc path is used directly and yields the
prefixed, tagged override value. -/
theorem resolve_casa_path_override_format_witness :
    (resolve_casa_path "/app/backend/etc"
        ⟨true, some "/opt/carta/etc", EtcLinkEntry.missing⟩).1 =
      Except.ok ("../../../../../" ++ "/opt/carta/etc" ++ " linux") :=
  (resolve_casa_path_override_format "/app/backend/etc"
      ⟨true, some "/opt/carta/etc", EtcLinkEntry.missing⟩).1
    "/opt/carta/etc" ⟨true, some "/opt/carta/etc", EtcLinkEntry.missing⟩
    ((resolve_casa_path_override_format "/app/backend/etc"
      ⟨true, some "/opt/carta/etc", EtcLinkEntry.missing⟩).2 rfl (by decide))

/-! ## C1: readiness polling -/

theorem wait_loop_exit_of_failed_polls (port t : Nat) (st : String) :
    ∀ (pre : List PollObs), (∀ o ∈ pre, o.exitStatus = none ∧ ∃ e, o.connect = Except.error e) →
    ∀ (obs : PollObs), obs.exitStatus = some st →
    ∀ (rest : List PollObs) (acc : Option String),
    wait_for_backend_loop port t (pre ++ obs :: rest) acc = Except.error (backendExitMessage st) := by
  intro pre
  induction pre with
  | nil =>
    intro _ obs hobs rest acc
    simp [wait_for_backend_loop, hobs]
  | cons o pre ih =>
    intro h obs hobs rest acc
    obtain ⟨hex, e, hconn⟩ := h o (List.mem_cons_self o pre)
    rw [List.cons_append, wait_for_backend_loop, hex]
    simp only [hconn]
    exact ih (fun o2 ho2 => h o2 (List.mem_cons_of_mem o ho2)) obs hobs rest (some e)

theorem wait_loop_timeout_of_failed_polls (port t : Nat) :
    ∀ (pre : List PollObs), (∀ o ∈ pre, o.exitStatus = none ∧ ∃ e, o.connect = Except.error e) →
    ∀ (lastObs : PollObs) (e : String), lastObs.exitStatus = none →
    lastObs.connect = Except.error e →
    ∀ (acc : Option String),
    wait_for_backend_loop port t (pre ++ [lastObs]) acc =
      Except.error (backendTimeoutMessage port t (some e)) := by
  intro pre
  induction pre with
  | nil =>
    intro _ lastObs e hex hconn acc
    rw [List.nil_append, wait_for_backend_loop, hex]
    simp only [hconn]
    rw [wait_for_backend_loop]
  | cons o pre ih =>
    intro h lastObs e hex hconn acc
    obtain ⟨hoex, e2, hoconn⟩ := h o (List.mem_cons_self o pre)
    rw [List.cons_append, wait_for_backend_loop, hoex]
    simp only [hoconn]
    exact ih (fun o2 ho2 => h o2 (List.mem_cons_of_mem o ho2)) lastObs e hex hconn (some e2)

/-- C1: during readiness polling, if some iteration before the
timeout observes that the child has already exited (all earlier
iterations having observed a live child and a failed probe), the
poll fails immediately with the exit status — independently of how
many iterations the timeout budget would still allow; and if every
iteration inside the timeout observes a live child and a failed
probe, the poll fails with the message carrying the port, the
timeout in seconds, and the last recorded connection error. -/
theorem wait_for_backend_exit_and_timeout (port t : Nat) :
    (∀ (pre : List PollObs),
       (∀ o ∈ pre, o.exitStatus = none ∧ ∃ e, o.connect = Except.error e) →
       ∀ (obs : PollObs) (st : String), obs.exitStatus = some st →
       ∀ (rest : List PollObs),
       wait_for_backend port t (pre ++ obs :: rest) =
         Except.error (backendExitMessage st))
    ∧ (∀ (pre : List PollObs),
       (∀ o ∈ pre, o.exitStatus = none ∧ ∃ e, o.connect = Except.error e) →
       ∀ (lastObs : PollObs) (e : String), lastObs.exitStatus = none →
       lastObs.connect = Except.error e →
       wait_for_backend port t (pre ++ [lastObs]) =
         Except.error (backendTimeoutMessage port t (some e))
       ∧ (toString port).data <:+: (backendTimeoutMessage port t (some e)).data
       ∧ (toString t ++ "s").data <:+: (backendTimeoutMessage port t (some e)).data
       ∧ e.data <:+: (backendTimeoutMessage port t (some e)).data) := by
  constructor
  · intro pre hpre obs st hobs rest
    exact wait_loop_exit_of_failed_polls port t st pre hpre obs hobs rest none
  · intro pre hpre lastObs e hex hconn
    refine ⟨wait_loop_timeout_of_failed_polls port t pre hpre lastObs e hex hconn none, ?_, ?_, ?_⟩
    · refine ⟨("Backend not ready on port " : String).data,
        (" after " ++ toString t ++ "s" ++ (" (" ++ e ++ ")")).data, ?_⟩
      simp [backendTimeoutMessage, String.data_append]
    · refine ⟨("Backend not ready on port " ++ toString port ++ " after ").data,
        (" (" ++ e ++ ")").data, ?_⟩
      simp [backendTimeoutMessage, String.data_append]
    · refine ⟨("Backend not ready on port " ++ toString port ++ " after " ++ toString t ++ "s" ++
        " (").data, (")" : String).data, ?_⟩
      simp [backendTimeoutMessage, String.data_append]

/-- Closed instance of `wait_for_backend_exit_and_timeout`: after
one failed probe, an iteration seeing the child dead fails with the
exit status even though more polls would fit the budget; and a trace
of only failed probes fails with the timeout message carrying port
3002, 60 seconds and the last error. -/
theorem wait_for_backend_exit_and_timeout_witness :
    wait_for_backend 3002 60
        [⟨none, Except.error "connection refused"⟩,
         ⟨some "exit status: 1", Except.error "connection refused"⟩,
         ⟨none, Except.ok ()⟩] =
      Except.error "Backend process exited unexpectedly with status: exit status: 1"
    ∧ wait_for_backend 3002 60
        [⟨none, Except.error "connection refused"⟩,
         ⟨none, Except.error "timed out"⟩] =
      Except.error "Backend not ready on port 3002 after 60s (timed out)" := by
  constructor
  · exact (wait_for_backend_exit_and_timeout 3002 60).1
      [⟨none, Except.error "connection refused"⟩]
      (by intro o ho; simp at ho; subst ho; exact ⟨rfl, "connection refused", rfl⟩)
      ⟨some "exit status: 1", Except.error "connection refused"⟩ "exit status: 1" rfl
      [⟨none, Except.ok ()⟩]
  · exact ((wait_for_backend_exit_and_timeout 3002 60).2
      [⟨none, Except.error "connection refused"⟩]
      (by intro o ho; simp at ho; subst ho; exact ⟨rfl, "connection refused", rfl⟩)
      ⟨none, Except.error "timed out"⟩ "timed out" rfl rfl).1

/-! ## C3: the `--` separator -/

theorem consumeAfterSeparator_spec :
    ∀ (rest : List String) (r : CliArgs),
    consumeAfterSeparator r rest =
      match r.input_path with
      | none => { r with input_path := rest.head?, extra_args := r.extra_args ++ rest.tail }
      | some _ => { r with extra_args := r.extra_args ++ rest } := by
  intro rest
  induction rest with
  | nil =>
    intro r
    obtain ⟨ip, ea, i, hl, vr, po, pe⟩ := r
    cases ip <;> simp [consumeAfterSeparator]
  | cons tok rest ih =>
    intro r
    obtain ⟨ip, ea, i, hl, vr, po, pe⟩ := r
    cases ip with
    | none =>
      have step : consumeAfterSeparator ⟨none, ea, i, hl, vr, po, pe⟩ (tok :: rest) =
          consumeAfterSeparator ⟨some tok, ea, i, hl, vr, po, pe⟩ rest := by
        simp [consumeAfterSeparator]
      rw [step, ih]
      simp
    | some p =>
      have step : consumeAfterSeparator ⟨some p, ea, i, hl, vr, po, pe⟩ (tok :: rest) =
          consumeAfterSeparator ⟨some p, ea ++ [tok], i, hl, vr, po, pe⟩ rest := by
        simp [consumeAfterSeparator]
      rw [step, ih]
      simp [List.append_assoc]

/-- C3 (amended): when the parser's main loop reaches a literal `--`
token, every remaining token is taken verbatim and never interpreted
as a launcher flag: the first remaining token becomes the input path
when no input path has been set yet, all other remaining tokens are
appended in order to the passthrough list, and all other fields (in
particular the inspect flag) are unchanged; in particular parsing
`["--", "--inspect", "-weird"]` yields input path `--inspect`,
passthrough `["-weird"]`, and no inspect request. -/
theorem parse_cli_args_double_dash :
    (∀ (r : CliArgs) (rest : List String),
       parse_cli_args_loop r ("--" :: rest) =
         match r.input_path with
         | none => { r with input_path := rest.head?, extra_args := r.extra_args ++ rest.tail }
         | some _ => { r with extra_args := r.extra_args ++ rest })
    ∧ parse_cli_args_from ["--", "--inspect", "-weird"] =
        { input_path := some "--inspect", extra_args := ["-weird"] } := by
  have hloop : ∀ (r : CliArgs) (rest : List String),
      parse_cli_args_loop r ("--" :: rest) = consumeAfterSeparator r rest := by
    intro r rest
    rw [parse_cli_args_loop.eq_def]
    simp
  constructor
  · intro r rest
    rw [hloop]
    exact consumeAfterSeparator_spec rest r
  · rw [parse_cli_args_from, hloop]
    rw [consumeAfterSeparator_spec]
    rfl

/-- C3 counterexample: the claim predicts that in any argument list
the first token after `--` becomes the input path, but with an input
path already set by an earlier positional token the tokens after
`--` all go to the passthrough list: parsing `["a", "--", "b"]`
keeps input path `a` and does not make it `b`. -/
theorem parse_cli_args_double_dash_counterexample :
    (parse_cli_args_from ["a", "--", "b"]).input_path = some "a"
    ∧ (parse_cli_args_from ["a", "--", "b"]).input_path ≠ some "b"
    ∧ (parse_cli_args_from ["a", "--", "b"]).extra_args = ["b"] := by
  have h : parse_cli_args_from ["a", "--", "b"] =
      { input_path := some "a", extra_args := ["b"] } := by
    simp [parse_cli_args_from, parse_cli_args_loop, consumeAfterSeparator,
      strStartsWith, strContains]
  rw [h]
  refine ⟨rfl, by simp, rfl⟩

/-! ## C6: port parsing -/

/-- C6: `--port 3003` and `--port=3003` both yield port 3003 with no
port error; and for every value rejected by the u16 parse (either
not a number or outside 0–65535), `--port <value>` leaves the port
unset and records a port error naming the offending literal. -/
theorem parse_cli_args_port :
    parse_cli_args_from ["--port", "3003"] = { port := some 3003 }
    ∧ parse_cli_args_from ["--port=3003"] = { port := some 3003 }
    ∧ (∀ v, parseU16 v = none →
        parse_cli_args_from ["--port", v] =
          { port_error := some ("Invalid port number: " ++ v) }) := by
  refine ⟨?_, ?_, ?_⟩
  · simp [parse_cli_args_from, parse_cli_args_loop, parse_port, parseU16]
  · simp [parse_cli_args_from, parse_cli_args_loop, parse_port, parseU16,
      trimStartMatches, trimStartMatchesAux, strStartsWith]
  · intro v hv
    rw [parse_cli_args_from, parse_cli_args_loop.eq_def]
    simp [parse_port, hv]

/-- Closed instances of `parse_cli_args_port`: an unparsable literal
and an out-of-range literal each produce the port error and no
port. -/
theorem parse_cli_args_port_witness :
    parse_cli_args_from ["--port", "not-a-number"] =
      { port_error := some ("Invalid port number: " ++ "not-a-number") }
    ∧ parse_cli_args_from ["--port", "65536"] =
      { port_error := some ("Invalid port number: " ++ "65536") } :=
  ⟨parse_cli_args_port.2.2 "not-a-number" (by decide),
   parse_cli_args_port.2.2 "65536" (by decide)⟩

/-! ## C4: value arity -/

/-- C4: the validator enforces each schema option's value arity: a
no-value option given an inline `=value` fails with `does not take a
value`; a required-value option with an inline value passes (that
token is consumed and validation continues on the rest); a
required-value option without an inline value fails with `requires a
value` when no next token exists or the next token is flag-shaped,
and otherwise consumes the next token as its value, skipping it from
further validation. -/
theorem validate_backend_args_value_arity (name v : String)
    (hnoeq : strContains name '=' = false)
    (hflag : isBackendFlagToken name = true)
    (hne : name ≠ "--") :
    (∀ rest, backend_option_kind name = some OptionValueKind.None →
       validate_backend_args (⟨name.data ++ '=' :: v.data⟩ :: rest) =
         Except.error ("Backend option " ++ name ++ " does not take a value"))
    ∧ (∀ rest, backend_option_kind name = some OptionValueKind.Required →
       validate_backend_args (⟨name.data ++ '=' :: v.data⟩ :: rest) =
         validate_backend_args rest)
    ∧ (backend_option_kind name = some OptionValueKind.Required →
       validate_backend_args [name] =
         Except.error ("Backend option " ++ name ++ " requires a value"))
    ∧ (∀ next rest2, backend_option_kind name = some OptionValueKind.Required →
       strStartsWith next "-" = true →
       validate_backend_args (name :: next :: rest2) =
         Except.error ("Backend option " ++ name ++ " requires a value"))
    ∧ (∀ next rest2, backend_option_kind name = some OptionValueKind.Required →
       strStartsWith next "-" = false →
       validate_backend_args (name :: next :: rest2) = validate_backend_args rest2) := by
  have hsplit := splitOnceEq_of_append v hnoeq
  have hsplit2 := splitOnceEq_of_no_eq hnoeq
  have hne2 : (⟨name.data ++ '=' :: v.data⟩ : String) ≠ "--" := inline_arg_ne name v "--" (by rfl)
  have hflag2 := isBackendFlagToken_inline name v hflag
  refine ⟨?_, ?_, ?_, ?_, ?_⟩
  · intro rest hkind
    rw [validate_backend_args.eq_def]
    simp only [hsplit, hkind, hflag2, eq_false hne2]
    simp
  · intro rest hkind
    rw [validate_backend_args.eq_def]
    simp only [hsplit, hkind, hflag2, eq_false hne2]
    simp
  · intro hkind
    rw [validate_backend_args.eq_def]
    simp only [hsplit2, hkind, hflag, eq_false hne]
    simp
  · intro next rest2 hkind hnext
    rw [validate_backend_args.eq_def]
    simp only [hsplit2, hkind, hflag, eq_false hne]
    simp [hnext]
  · intro next rest2 hkind hnext
    rw [validate_backend_args.eq_def]
    simp only [hsplit2, hkind, hflag, eq_false hne]
    simp [hnext]

/-- Closed instances of `validate_backend_args_value_arity`: a
no-value option with an inline value, a required-value option with a
missing value, a required-value option followed by a flag-shaped
token, and a required-value option consuming the next token. -/
theorem validate_backend_args_value_arity_witness :
    validate_backend_args [⟨("--no_log").data ++ '=' :: ("1").data⟩] =
      Except.error ("Backend option " ++ "--no_log" ++ " does not take a value")
    ∧ validate_backend_args ["--verbosity"] =
      Except.error ("Backend option " ++ "--verbosity" ++ " requires a value")
    ∧ validate_backend_args ["--verbosity", "-5"] =
      Except.error ("Backend option " ++ "--verbosity" ++ " requires a value")
    ∧ validate_backend_args ["--verbosity", "5"] = validate_backend_args [] :=
  ⟨(validate_backend_args_value_arity "--no_log" "1"
      (by decide) (by decide) (by decide)).1 [] (by decide),
   (validate_backend_args_value_arity "--verbosity" "x"
      (by decide) (by decide) (by decide)).2.2.1 (by decide),
   (validate_backend_args_value_arity "--verbosity" "x"
      (by decide) (by decide) (by decide)).2.2.2.1 "-5" [] (by decide) (by decide),
   (validate_backend_args_value_arity "--verbosity" "x"
      (by decide) (by decide) (by decide)).2.2.2.2 "5" [] (by decide) (by decide)⟩

/-! ## C5: unknown options -/

theorem unknown_message_structure (option : String) :
    ("Unsupported backend option: " ++ option).data <+:
      (unknown_backend_option_message option).data
    ∧ (∀ c, backend_long_candidates option = [c] →
        ("\nDid you mean " ++ c ++ "?").data <:+:
          (unknown_backend_option_message option).data)
    ∧ ("\nRun with --help to see supported options.").data <:+
        (unknown_backend_option_message option).data := by
  cases hc : backend_long_candidates option with
  | nil =>
    simp only [unknown_backend_option_message, hc]
    refine ⟨?_, ?_, ?_⟩
    · exact ⟨("\nRun with --help to see supported options.").data,
        by simp [String.data_append]⟩
    · intro c h
      cases h
    · exact ⟨("Unsupported backend option: " ++ option).data,
        by simp [String.data_append]⟩
  | cons c tl =>
    cases tl with
    | nil =>
      simp only [unknown_backend_option_message, hc]
      refine ⟨?_, ?_, ?_⟩
      · exact ⟨("\nDid you mean " ++ c ++ "?" ++
          "\nRun with --help to see supported options.").data,
          by simp [String.data_append, List.append_assoc]⟩
      · intro c2 h2
        cases h2
        exact ⟨("Unsupported backend option: " ++ option).data,
          ("\nRun with --help to see supported options.").data,
          by simp [String.data_append, List.append_assoc]⟩
      · exact ⟨("Unsupported backend option: " ++ option ++ "\nDid you mean " ++ c ++ "?").data,
          by simp [String.data_append, List.append_assoc]⟩
    | cons d tl2 =>
      simp only [unknown_backend_option_message, hc]
      refine ⟨?_, ?_, ?_⟩
      · exact ⟨("\nRun with --help to see supported options.").data,
          by simp [String.data_append]⟩
      · intro c2 h2
        cases h2
      · exact ⟨("Unsupported backend option: " ++ option).data,
          by simp [String.data_append]⟩

/-- C5: a flag-shaped token whose (inline-value-stripped) name is
not in the schema makes validation fail with the message naming the
option; when exactly one known long option has the unknown name as a
prefix the message carries a `Did you mean` suggestion naming that
option, and in every case it carries the generic `--help` hint. -/
theorem validate_backend_args_unknown_option (tok : String) (rest : List String)
    (hflag : isBackendFlagToken tok = true) (hne : tok ≠ "--")
    (hunk : backend_option_kind (splitOnceEq tok).1 = none) :
    validate_backend_args (tok :: rest) =
      Except.error (unknown_backend_option_message (splitOnceEq tok).1)
    ∧ ("Unsupported backend option: " ++ (splitOnceEq tok).1).data <+:
        (unknown_backend_option_message (splitOnceEq tok).1).data
    ∧ (∀ c, backend_long_candidates (splitOnceEq tok).1 = [c] →
        ("\nDid you mean " ++ c ++ "?").data <:+:
          (unknown_backend_option_message (splitOnceEq tok).1).data)
    ∧ ("\nRun with --help to see supported options.").data <:+
        (unknown_backend_option_message (splitOnceEq tok).1).data := by
  refine ⟨?_, (unknown_message_structure _).1, (unknown_message_structure _).2.1,
    (unknown_message_structure _).2.2⟩
  rw [validate_backend_args.eq_def]
  simp only [hunk, hflag, eq_false hne]
  simp

/-- Closed instance of `validate_backend_args_unknown_option`: the
unknown long option `--log_protocol` is rejected with its
`unknown option` message, which carries the unique suggestion
`--log_protocol_messages`. -/
theorem validate_backend_args_unknown_option_witness :
    validate_backend_args ["--log_protocol"] =
      Except.error (unknown_backend_option_message (splitOnceEq "--log_protocol").1)
    ∧ ("\nDid you mean " ++ "--log_protocol_messages" ++ "?").data <:+:
        (unknown_backend_option_message (splitOnceEq "--log_protocol").1).data :=
  ⟨(validate_backend_args_unknown_option "--log_protocol" []
      (by decide) (by decide) (by decide)).1,
   (validate_backend_args_unknown_option "--log_protocol" []
      (by decide) (by decide) (by decide)).2.2.1 "--log_protocol_messages" (by decide)⟩

/-! ## C10: component-wise containment -/

/-- C10: the containment test compares whole path components, not
string prefixes: a base that merely extends the root's final
component name (such as `/mnt/c/Users` against `/mnt/c/User`) is not
contained — in general any textual extension of the trimmed root
whose first extra character is not a separator is not contained —
while a base equal to the root up to trailing `/` separators is
contained. -/
theorem wsl_path_is_within_component_semantics :
    wsl_path_is_within "/mnt/c/Users" "/mnt/c/User" = false
    ∧ is_path_within_top_level "/mnt/c/Users" "/mnt/c/User" = false
    ∧ (∀ (base top : String), trimEndSlashes base = trimEndSlashes top →
        wsl_path_is_within base top = true)
    ∧ (∀ (base top s : String),
        (trimEndSlashes base).data = (trimEndSlashes top).data ++ s.data →
        s.data ≠ [] → s.data.head? ≠ some '/' →
        wsl_path_is_within base top = false) := by
  refine ⟨by decide, by decide, ?_, ?_⟩
  · intro base top h
    simp only [wsl_path_is_within]
    rw [if_pos h]
  · intro base top s hdata hne hhead
    have hneq : trimEndSlashes base ≠ trimEndSlashes top := by
      intro he
      rw [he] at hdata
      have hl := congrArg List.length hdata
      simp at hl
      exact hne (List.eq_nil_of_length_eq_zero hl)
    simp only [wsl_path_is_within]
    rw [if_neg hneq]
    have hget : (trimEndSlashes base).data[(trimEndSlashes top).data.length]? = s.data.head? := by
      rw [hdata, List.getElem?_append_right (Nat.le_refl _)]
      simp
      cases hs : s.data with
      | nil => exact absurd hs hne
      | cons a l => simp [hs]
    rw [hget]
    simp [hhead]

/-- Closed instances of `wsl_path_is_within_component_semantics`: a
base equal to the root up to a trailing slash is contained, and a
base extending the root's last component by one character is not. -/
theorem wsl_path_is_within_component_semantics_witness :
    wsl_path_is_within "/mnt/c/Users" "/mnt/c/Users/" = true
    ∧ wsl_path_is_within "/mnt/c/Users" "/mnt/c/User" = false :=
  ⟨wsl_path_is_within_component_semantics.2.2.1 "/mnt/c/Users" "/mnt/c/Users/" (by decide),
   wsl_path_is_within_component_semantics.2.2.2 "/mnt/c/Users" "/mnt/c/User" "s"
     (by decide) (by decide) (by decide)⟩

end Carta
